import Mathlib

/-!
Verification of bytesep/callbacks/violin_piano_callbacks.py.

The file embeds the evaluation callback for violin/piano source separation.
External services (file system listing, librosa audio loading, the neural
separator, the SDR metric and YAML parsing) are abstracted as fields of an
environment record; the control flow and data flow of the Python file are
translated directly.
-/

namespace Bytesep

/-- A numpy waveform as loaded by librosa: one-dimensional (mono) or
two-dimensional (channels, audio_length).  Samples are modelled as rationals. -/
inductive Audio where
  | dim1 : List ℚ → Audio
  | dim2 : List (List ℚ) → Audio
  deriving DecidableEq

/-- numpy ndim of a waveform. -/
def Audio.ndim : Audio → Nat
  | .dim1 _ => 1
  | .dim2 _ => 2

/-- The numpy reshape mixture[None, :] of a one-dimensional waveform to shape
(1, length).  The two-dimensional branch is unreachable under the ndim = 1
guard in the callback and is the identity. -/
def Audio.addLeadingAxis : Audio → Audio
  | .dim1 xs => .dim2 [xs]
  | .dim2 xss => .dim2 xss

/-- Modelled from the spec: the statistics store (StatisticsContainer from
bytesep.utils, whose code is not under src).  It records the path it was
constructed with, the sequence of appended records and how many times it was
dumped to disk. -/
structure StatisticsContainer where
  statistics_path : String
  entries : List (Nat × List (String × ℚ) × String)
  dump_count : Nat
  deriving DecidableEq

/-- Modelled from the spec: StatisticsContainer.append records one statistics
dict together with the global step and the split name. -/
def StatisticsContainer.append (c : StatisticsContainer) (global_step : Nat)
    (statistics : List (String × ℚ)) (split : String) : StatisticsContainer :=
  { c with entries := c.entries ++ [(global_step, statistics, split)] }

/-- Modelled from the spec: StatisticsContainer.dump writes the store to disk. -/
def StatisticsContainer.dump (c : StatisticsContainer) : StatisticsContainer :=
  { c with dump_count := c.dump_count + 1 }

/-- The Separator wrapper from bytesep.inference, as constructed by the
callback: it keeps the model, the segment length, the batch size and the
device.  Its separate method is abstracted in the environment. -/
structure Separator (M : Type) where
  model : M
  segment_samples : ℤ
  batch_size : Nat
  device : String
  deriving DecidableEq

/-- The train section of the YAML config. -/
structure TrainConfigs where
  target_source_types : List String
  channels : Nat
  sample_rate : Nat
  evaluate_step_frequency : Nat
  save_step_frequency : Nat
  deriving DecidableEq

/-- The evaluate.test section of the YAML config. -/
structure TestConfigs where
  evaluation_audios_dir : String
  deriving DecidableEq

/-- The evaluate section of the YAML config. -/
structure EvaluateConfigs where
  test : TestConfigs
  batch_size : Nat
  segment_seconds : ℚ
  deriving DecidableEq

/-- The parsed YAML config, with the entries the file reads. -/
structure Configs where
  train : TrainConfigs
  evaluate : EvaluateConfigs
  deriving DecidableEq

/-- The external world: read_yaml, os.listdir, librosa.core.load (path, sr,
mono), Separator.separate on an input dict, and calculate_sdr (ref, est). -/
structure Env (M : Type) where
  readYaml : String → Configs
  listdir : String → List String
  load : String → Nat → Bool → Audio
  separate : Separator M → List (String × Audio) → Audio
  calculate_sdr : Audio → Audio → ℚ

/-- os.path.join for a head without trailing separator and a relative tail. -/
def osPathJoin (a b : String) : String := a ++ "/" ++ b

/-- Python int() applied to a rational: truncation toward zero. -/
def pyInt (q : ℚ) : ℤ := if 0 ≤ q then ⌊q⌋ else ⌈q⌉

/-- Python sorted() on file names: the unique ≤-sorted permutation. -/
def sortedNames (l : List String) : List String :=
  List.insertionSort (fun a b => a ≤ b) l

/-- numpy mean of a list of rationals (the list is nonempty at every use). -/
def npMean (xs : List ℚ) : ℚ := xs.sum / (xs.length : ℚ)

/-- The attributes stored by EvaluationCallback.__init__ (input_channels,
batch_size and device are only kept inside the Separator). -/
structure EvaluationCallback (M L : Type) where
  model : M
  target_source_type : String
  sample_rate : Nat
  mono : Bool
  segment_samples : ℤ
  evaluate_step_frequency : Nat
  logger : L
  statistics_container : StatisticsContainer
  evaluation_audios_dir : String
  separator : Separator M

/-- The checkpoint-saving callback from bytesep.callbacks.base_callbacks, as
constructed with keyword arguments model, checkpoints_dir and
save_step_frequency. -/
structure SaveCheckpointsCallback (M : Type) where
  model : M
  checkpoints_dir : String
  save_step_frequency : Nat

/-- A pl.Callback returned by get_violin_piano_callbacks: either the
checkpoint-saving callback or the evaluation callback. -/
inductive Callback (M L : Type) where
  | save : SaveCheckpointsCallback M → Callback M L
  | eval : EvaluationCallback M L → Callback M L

/-- get_violin_piano_callbacks: reads the YAML config, asserts that
target_source_types has exactly one element (AssertionError otherwise) and
builds the checkpoint callback and the evaluation callback. -/
def get_violin_piano_callbacks {M L : Type} (env : Env M) (config_yaml : String)
    (dataset_dir : String) (workspace : String) (checkpoints_dir : String)
    (statistics_path : String) (logger : L) (model : M)
    (evaluate_device : String) : Except String (List (Callback M L)) :=
  let configs := env.readYaml config_yaml
  let input_channels := configs.train.channels
  let mono := input_channels == 1
  let evaluation_audios_dir :=
    osPathJoin workspace configs.evaluate.test.evaluation_audios_dir
  let sample_rate := configs.train.sample_rate
  let evaluate_step_frequency := configs.train.evaluate_step_frequency
  let save_step_frequency := configs.train.save_step_frequency
  let test_batch_size := configs.evaluate.batch_size
  let test_segment_seconds := configs.evaluate.segment_seconds
  let test_segment_samples := pyInt (test_segment_seconds * (sample_rate : ℚ))
  match configs.train.target_source_types with
  | [target_source_type] =>
    let save_checkpoints_callback : SaveCheckpointsCallback M :=
      { model := model
        checkpoints_dir := checkpoints_dir
        save_step_frequency := save_step_frequency }
    let statistics_container : StatisticsContainer :=
      { statistics_path := statistics_path, entries := [], dump_count := 0 }
    let evaluate_test_callback : EvaluationCallback M L :=
      { model := model
        target_source_type := target_source_type
        sample_rate := sample_rate
        mono := mono
        segment_samples := test_segment_samples
        evaluate_step_frequency := evaluate_step_frequency
        logger := logger
        statistics_container := statistics_container
        evaluation_audios_dir := evaluation_audios_dir
        separator :=
          { model := model
            segment_samples := test_segment_samples
            batch_size := test_batch_size
            device := evaluate_device } }
    Except.ok [Callback.save save_checkpoints_callback,
               Callback.eval evaluate_test_callback]
  | _ => Except.error "AssertionError: len(target_source_types) == 1"

/-- The mixture as passed to the separator: reshaped to (1, length) when it is
one-dimensional. -/
def mixtureInput (a : Audio) : Audio :=
  if a.ndim = 1 then a.addLeadingAxis else a

/-- One iteration of the evaluation loop: load the mixture and the clean
reference of one audio name, separate, and compute the SDR.  Returns the
librosa load calls performed (path, sr, mono) and the SDR value. -/
def evaluateOne {M L : Type} (env : Env M) (cb : EvaluationCallback M L)
    (mixture_audios_dir clean_audios_dir audio_name : String) :
    List (String × Nat × Bool) × ℚ :=
  let mixture_path := osPathJoin mixture_audios_dir audio_name
  let clean_path := osPathJoin clean_audios_dir audio_name
  let mixture := env.load mixture_path cb.sample_rate cb.mono
  let clean := env.load clean_path cb.sample_rate cb.mono
  let input_dict := [("waveform", mixtureInput mixture)]
  let sep_wav := env.separate cb.separator input_dict
  let sdr := env.calculate_sdr clean sep_wav
  ([(mixture_path, cb.sample_rate, cb.mono),
    (clean_path, cb.sample_rate, cb.mono)], sdr)

/-- The observable outcome of one on_batch_end call: whether the evaluation
branch ran, the AssertionError raised (if any), the librosa load calls, the
per-file SDR values printed, and the statistics container afterwards. -/
structure BatchEndResult where
  evaluated : Bool
  error : Option String
  loads : List (String × Nat × Bool)
  sdrs : List ℚ
  container : StatisticsContainer
  deriving DecidableEq

/-- EvaluationCallback.on_batch_end: when trainer.global_step is a multiple of
evaluate_step_frequency, list the mixture directory, assert it is nonempty,
evaluate every audio pair, and append and dump the averaged SDR under the key
pesq and the split test; otherwise do nothing. -/
def EvaluationCallback.on_batch_end {M L : Type} (env : Env M)
    (cb : EvaluationCallback M L) (container : StatisticsContainer)
    (global_step : Nat) : BatchEndResult :=
  if global_step % cb.evaluate_step_frequency = 0 then
    let mixture_audios_dir := osPathJoin cb.evaluation_audios_dir "mixture"
    let clean_audios_dir := osPathJoin cb.evaluation_audios_dir cb.target_source_type
    let audio_names := sortedNames (env.listdir mixture_audios_dir)
    if audio_names.length > 0 then
      let results := audio_names.map
        (fun audio_name =>
          evaluateOne env cb mixture_audios_dir clean_audios_dir audio_name)
      let loads := results.flatMap (fun p => p.1)
      let sdrs := results.map (fun p => p.2)
      let statistics := [("pesq", npMean sdrs)]
      let container := (container.append global_step statistics "test").dump
      { evaluated := true, error := none, loads := loads, sdrs := sdrs,
        container := container }
    else
      { evaluated := true
        error := some ("Directory " ++ cb.evaluation_audios_dir
          ++ " does not contain audios for evaluation!")
        loads := [], sdrs := [], container := container }
  else
    { evaluated := false, error := none, loads := [], sdrs := [],
      container := container }

/-! Helper lemmas. -/

/-- Python sorted() is invariant under permutation of its input. -/
theorem sortedNames_eq_of_perm {l1 l2 : List String} (h : l1.Perm l2) :
    sortedNames l1 = sortedNames l2 := by
  haveI h1 : IsAntisymm String (fun a b => a ≤ b) :=
    ⟨fun _ _ ha hb => le_antisymm ha hb⟩
  exact List.eq_of_perm_of_sorted
    ((List.perm_insertionSort _ l1).trans (h.trans (List.perm_insertionSort _ l2).symm))
    (List.sorted_insertionSort _ l1)
    (List.sorted_insertionSort _ l2)

/-- sorted() returns a permutation of its input. -/
theorem sortedNames_perm (l : List String) : (sortedNames l).Perm l :=
  List.perm_insertionSort _ l

/-- sorted() returns a ≤-sorted list. -/
theorem sortedNames_sorted (l : List String) :
    (sortedNames l).Sorted (fun a b => a ≤ b) :=
  List.sorted_insertionSort _ l

/-- At a non-evaluation step, on_batch_end does nothing. -/
theorem on_batch_end_skip {M L : Type} (env : Env M) (cb : EvaluationCallback M L)
    (c : StatisticsContainer) (step : Nat)
    (h : ¬ step % cb.evaluate_step_frequency = 0) :
    cb.on_batch_end env c step =
      { evaluated := false, error := none, loads := [], sdrs := [], container := c } := by
  simp only [EvaluationCallback.on_batch_end, if_neg h]

/-- At an evaluation step with an empty mixture directory, on_batch_end raises
the AssertionError with the formatted message and performs nothing else. -/
theorem on_batch_end_assert {M L : Type} (env : Env M) (cb : EvaluationCallback M L)
    (c : StatisticsContainer) (step : Nat)
    (h : step % cb.evaluate_step_frequency = 0)
    (hempty : env.listdir (osPathJoin cb.evaluation_audios_dir "mixture") = []) :
    cb.on_batch_end env c step =
      { evaluated := true
        error := some ("Directory " ++ cb.evaluation_audios_dir
          ++ " does not contain audios for evaluation!")
        loads := [], sdrs := [], container := c } := by
  simp only [EvaluationCallback.on_batch_end, if_pos h, hempty, sortedNames,
    List.insertionSort, List.length_nil, gt_iff_lt, Nat.lt_irrefl, if_neg,
    not_false_eq_true, reduceIte]

/-- At an evaluation step with a nonempty mixture directory, on_batch_end runs
the full evaluation: one evaluateOne per sorted audio name, then one append of
the mean SDR under the key pesq and the split test, then one dump. -/
theorem on_batch_end_run {M L : Type} (env : Env M) (cb : EvaluationCallback M L)
    (c : StatisticsContainer) (step : Nat)
    (h : step % cb.evaluate_step_frequency = 0)
    (hne : env.listdir (osPathJoin cb.evaluation_audios_dir "mixture") ≠ []) :
    cb.on_batch_end env c step =
      { evaluated := true
        error := none
        loads := ((sortedNames (env.listdir (osPathJoin cb.evaluation_audios_dir "mixture"))).map
          (fun audio_name =>
            evaluateOne env cb (osPathJoin cb.evaluation_audios_dir "mixture")
              (osPathJoin cb.evaluation_audios_dir cb.target_source_type) audio_name)).flatMap
          (fun p => p.1)
        sdrs := ((sortedNames (env.listdir (osPathJoin cb.evaluation_audios_dir "mixture"))).map
          (fun audio_name =>
            evaluateOne env cb (osPathJoin cb.evaluation_audios_dir "mixture")
              (osPathJoin cb.evaluation_audios_dir cb.target_source_type) audio_name)).map
          (fun p => p.2)
        container := (c.append step
          [("pesq", npMean
            (((sortedNames (env.listdir (osPathJoin cb.evaluation_audios_dir "mixture"))).map
              (fun audio_name =>
                evaluateOne env cb (osPathJoin cb.evaluation_audios_dir "mixture")
                  (osPathJoin cb.evaluation_audios_dir cb.target_source_type) audio_name)).map
              (fun p => p.2)))] "test").dump } := by
  have hlen : 0 <
      (sortedNames (env.listdir (osPathJoin cb.evaluation_audios_dir "mixture"))).length := by
    rw [sortedNames, List.length_insertionSort]
    exact List.length_pos.mpr hne
  simp only [EvaluationCallback.on_batch_end, if_pos h, gt_iff_lt, if_pos hlen]

/-- The evaluated flag of on_batch_end is set exactly at multiples of
evaluate_step_frequency. -/
theorem on_batch_end_evaluated_iff {M L : Type} (env : Env M)
    (cb : EvaluationCallback M L) (c : StatisticsContainer) (step : Nat) :
    (cb.on_batch_end env c step).evaluated = true ↔
      step % cb.evaluate_step_frequency = 0 := by
  by_cases h : step % cb.evaluate_step_frequency = 0
  · by_cases hl : env.listdir (osPathJoin cb.evaluation_audios_dir "mixture") = []
    · rw [on_batch_end_assert env cb c step h hl]
      simp [h]
    · rw [on_batch_end_run env cb c step h hl]
      simp [h]
  · rw [on_batch_end_skip env cb c step h]
    simp [h]

/-! Witness fixtures: a concrete config, environment, callback and container. -/

/-- A concrete parsed config for the witnesses. -/
def configsW : Configs :=
  { train :=
      { target_source_types := ["violin"]
        channels := 1
        sample_rate := 44100
        evaluate_step_frequency := 5
        save_step_frequency := 100 }
    evaluate :=
      { test := { evaluation_audios_dir := "evaluation_audios/violin_piano" }
        batch_size := 12
        segment_seconds := 10 } }

/-- A concrete environment for the witnesses. -/
def envW : Env Unit :=
  { readYaml := fun _ => configsW
    listdir := fun _ => ["b.wav", "a.wav"]
    load := fun _ _ _ => Audio.dim1 [1, 2]
    separate := fun _ _ => Audio.dim2 [[1, 2]]
    calculate_sdr := fun _ _ => 3 }

/-- A concrete statistics container for the witnesses. -/
def containerW : StatisticsContainer :=
  { statistics_path := "stats.pkl", entries := [], dump_count := 0 }

/-- A concrete evaluation callback for the witnesses. -/
def cbW : EvaluationCallback Unit Unit :=
  { model := ()
    target_source_type := "violin"
    sample_rate := 44100
    mono := true
    segment_samples := 441000
    evaluate_step_frequency := 5
    logger := ()
    statistics_container := containerW
    evaluation_audios_dir := "ws/evaluation_audios"
    separator :=
      { model := (), segment_samples := 441000, batch_size := 12, device := "cuda" } }

/-- A concrete environment whose listings are empty, for the C7 witness. -/
def envEmptyW : Env Unit := { envW with listdir := fun _ => [] }

/-! Claim theorems. -/

/-- C1: on_batch_end performs the evaluation if and only if trainer.global_step
is an exact multiple of evaluate_step_frequency, hence also at global step 0;
at every other batch end the statistics container is left unchanged and no
audio is loaded. -/
theorem C1_evaluates_iff_step_multiple {M L : Type} (env : Env M)
    (cb : EvaluationCallback M L) (c : StatisticsContainer) (step : Nat)
    (hfreq : 0 < cb.evaluate_step_frequency) :
    ((cb.on_batch_end env c step).evaluated = true ↔
        cb.evaluate_step_frequency ∣ step)
    ∧ (cb.on_batch_end env c 0).evaluated = true
    ∧ (¬ cb.evaluate_step_frequency ∣ step →
        (cb.on_batch_end env c step).container = c
        ∧ (cb.on_batch_end env c step).loads = []) := by
  refine ⟨(on_batch_end_evaluated_iff env cb c step).trans
    Nat.dvd_iff_mod_eq_zero.symm, ?_, ?_⟩
  · exact (on_batch_end_evaluated_iff env cb c 0).mpr (Nat.zero_mod _)
  · intro hnd
    have h : ¬ step % cb.evaluate_step_frequency = 0 :=
      fun he => hnd (Nat.dvd_iff_mod_eq_zero.mpr he)
    rw [on_batch_end_skip env cb c step h]
    exact ⟨rfl, rfl⟩

/-- Witness for C1 at step 3 with frequency 5. -/
theorem C1_evaluates_iff_step_multiple_witness :
    0 < cbW.evaluate_step_frequency
    ∧ (((cbW.on_batch_end envW containerW 3).evaluated = true ↔
          cbW.evaluate_step_frequency ∣ 3)
       ∧ (cbW.on_batch_end envW containerW 0).evaluated = true
       ∧ (¬ cbW.evaluate_step_frequency ∣ 3 →
           (cbW.on_batch_end envW containerW 3).container = containerW
           ∧ (cbW.on_batch_end envW containerW 3).loads = [])) :=
  ⟨by decide, C1_evaluates_iff_step_multiple envW cbW containerW 3 (by decide)⟩

/-- C6: the dataset_dir argument of get_violin_piano_callbacks has no effect on
the returned callbacks. -/
theorem C6_dataset_dir_has_no_effect {M L : Type} (env : Env M)
    (config_yaml dataset_dir1 dataset_dir2 workspace checkpoints_dir
      statistics_path : String) (logger : L) (model : M) (evaluate_device : String) :
    get_violin_piano_callbacks env config_yaml dataset_dir1 workspace
        checkpoints_dir statistics_path logger model evaluate_device
      = get_violin_piano_callbacks env config_yaml dataset_dir2 workspace
        checkpoints_dir statistics_path logger model evaluate_device := rfl

/-- C7: at an evaluation step with an empty mixture listing, on_batch_end
raises an AssertionError before loading any audio, computing any SDR or
touching the statistics container. -/
theorem C7_assert_on_empty_listing {M L : Type} (env : Env M)
    (cb : EvaluationCallback M L) (c : StatisticsContainer) (step : Nat)
    (hstep : step % cb.evaluate_step_frequency = 0)
    (hempty : env.listdir (osPathJoin cb.evaluation_audios_dir "mixture") = []) :
    (cb.on_batch_end env c step).error =
      some ("Directory " ++ cb.evaluation_audios_dir
        ++ " does not contain audios for evaluation!")
    ∧ (cb.on_batch_end env c step).loads = []
    ∧ (cb.on_batch_end env c step).sdrs = []
    ∧ (cb.on_batch_end env c step).container = c := by
  rw [on_batch_end_assert env cb c step hstep hempty]
  exact ⟨rfl, rfl, rfl, rfl⟩

/-- Witness for C7 at step 0 with an empty directory. -/
theorem C7_assert_on_empty_listing_witness :
    (0 % cbW.evaluate_step_frequency = 0
     ∧ envEmptyW.listdir (osPathJoin cbW.evaluation_audios_dir "mixture") = [])
    ∧ ((cbW.on_batch_end envEmptyW containerW 0).error =
        some ("Directory " ++ cbW.evaluation_audios_dir
          ++ " does not contain audios for evaluation!")
       ∧ (cbW.on_batch_end envEmptyW containerW 0).loads = []
       ∧ (cbW.on_batch_end envEmptyW containerW 0).sdrs = []
       ∧ (cbW.on_batch_end envEmptyW containerW 0).container = containerW) :=
  ⟨⟨rfl, rfl⟩, C7_assert_on_empty_listing envEmptyW cbW containerW 0 rfl rfl⟩

/-- C2: at every evaluation step the single recorded statistic is the averaged
per-file SDR: the container afterwards is exactly one append of a singleton
statistics dict whose value is the arithmetic mean of the per-file SDR values
of the run, recorded with the current global step under the split test,
followed immediately by one dump. -/
theorem C2_records_mean_sdr {M L : Type} (env : Env M)
    (cb : EvaluationCallback M L) (c : StatisticsContainer) (step : Nat)
    (hstep : step % cb.evaluate_step_frequency = 0)
    (hne : env.listdir (osPathJoin cb.evaluation_audios_dir "mixture") ≠ []) :
    (cb.on_batch_end env c step).container =
      (c.append step [("pesq", npMean (cb.on_batch_end env c step).sdrs)] "test").dump
    ∧ npMean (cb.on_batch_end env c step).sdrs =
        ((cb.on_batch_end env c step).sdrs).sum
          / (((cb.on_batch_end env c step).sdrs).length : ℚ) := by
  rw [on_batch_end_run env cb c step hstep hne]
  exact ⟨rfl, rfl⟩

/-- Witness for C2 at step 0 on the concrete environment. -/
theorem C2_records_mean_sdr_witness :
    (0 % cbW.evaluate_step_frequency = 0
     ∧ envW.listdir (osPathJoin cbW.evaluation_audios_dir "mixture") ≠ [])
    ∧ ((cbW.on_batch_end envW containerW 0).container =
        (containerW.append 0
          [("pesq", npMean (cbW.on_batch_end envW containerW 0).sdrs)] "test").dump
       ∧ npMean (cbW.on_batch_end envW containerW 0).sdrs =
          ((cbW.on_batch_end envW containerW 0).sdrs).sum
            / (((cbW.on_batch_end envW containerW 0).sdrs).length : ℚ)) :=
  ⟨⟨rfl, by decide⟩, C2_records_mean_sdr envW cbW containerW 0 rfl (by decide)⟩

/-- C3: the evaluated audio names are exactly the sorted listing of the
mixture subdirectory, and for each name the mixture is loaded from
evaluation_audios_dir/mixture/name and the clean reference from
evaluation_audios_dir/target_source_type/name, both with the configured
sample rate and mono flag. -/
theorem C3_sorted_names_and_paired_paths {M L : Type} (env : Env M)
    (cb : EvaluationCallback M L) (c : StatisticsContainer) (step : Nat)
    (hstep : step % cb.evaluate_step_frequency = 0)
    (hne : env.listdir (osPathJoin cb.evaluation_audios_dir "mixture") ≠ []) :
    (cb.on_batch_end env c step).loads =
      (sortedNames (env.listdir (osPathJoin cb.evaluation_audios_dir "mixture"))).flatMap
        (fun audio_name =>
          [(osPathJoin (osPathJoin cb.evaluation_audios_dir "mixture") audio_name,
            cb.sample_rate, cb.mono),
           (osPathJoin (osPathJoin cb.evaluation_audios_dir cb.target_source_type)
              audio_name,
            cb.sample_rate, cb.mono)])
    ∧ (sortedNames (env.listdir (osPathJoin cb.evaluation_audios_dir "mixture"))).Perm
        (env.listdir (osPathJoin cb.evaluation_audios_dir "mixture"))
    ∧ (sortedNames (env.listdir (osPathJoin cb.evaluation_audios_dir "mixture"))).Sorted
        (fun a b => a ≤ b) := by
  refine ⟨?_, sortedNames_perm _, sortedNames_sorted _⟩
  rw [on_batch_end_run env cb c step hstep hne]
  rw [List.flatMap_map]
  rfl

/-- Witness for C3 at step 0 on the concrete environment. -/
theorem C3_sorted_names_and_paired_paths_witness :
    (0 % cbW.evaluate_step_frequency = 0
     ∧ envW.listdir (osPathJoin cbW.evaluation_audios_dir "mixture") ≠ [])
    ∧ ((cbW.on_batch_end envW containerW 0).loads =
        (sortedNames (envW.listdir (osPathJoin cbW.evaluation_audios_dir "mixture"))).flatMap
          (fun audio_name =>
            [(osPathJoin (osPathJoin cbW.evaluation_audios_dir "mixture") audio_name,
              cbW.sample_rate, cbW.mono),
             (osPathJoin (osPathJoin cbW.evaluation_audios_dir cbW.target_source_type)
                audio_name,
              cbW.sample_rate, cbW.mono)])
       ∧ (sortedNames (envW.listdir (osPathJoin cbW.evaluation_audios_dir "mixture"))).Perm
          (envW.listdir (osPathJoin cbW.evaluation_audios_dir "mixture"))
       ∧ (sortedNames (envW.listdir (osPathJoin cbW.evaluation_audios_dir "mixture"))).Sorted
          (fun a b => a ≤ b)) :=
  ⟨⟨rfl, by decide⟩, C3_sorted_names_and_paired_paths envW cbW containerW 0 rfl (by decide)⟩

/-- C4: exactly one SDR is produced per audio pair: the loaded mixture is
reshaped to (1, length) when one-dimensional, passed as the waveform entry of
the input dict to Separator.separate, and the SDR is calculate_sdr with the
loaded clean signal as reference and the separated waveform as estimate. -/
theorem C4_one_sdr_per_pair {M L : Type} (env : Env M)
    (cb : EvaluationCallback M L) (c : StatisticsContainer) (step : Nat)
    (hstep : step % cb.evaluate_step_frequency = 0)
    (hne : env.listdir (osPathJoin cb.evaluation_audios_dir "mixture") ≠ []) :
    (cb.on_batch_end env c step).sdrs =
      (sortedNames (env.listdir (osPathJoin cb.evaluation_audios_dir "mixture"))).map
        (fun audio_name =>
          env.calculate_sdr
            (env.load
              (osPathJoin (osPathJoin cb.evaluation_audios_dir cb.target_source_type)
                audio_name)
              cb.sample_rate cb.mono)
            (env.separate cb.separator
              [("waveform", mixtureInput (env.load
                  (osPathJoin (osPathJoin cb.evaluation_audios_dir "mixture") audio_name)
                  cb.sample_rate cb.mono))]))
    ∧ (cb.on_batch_end env c step).sdrs.length =
        (env.listdir (osPathJoin cb.evaluation_audios_dir "mixture")).length
    ∧ (∀ xs : List ℚ, mixtureInput (Audio.dim1 xs) = Audio.dim2 [xs])
    ∧ (∀ a : Audio, a.ndim ≠ 1 → mixtureInput a = a) := by
  rw [on_batch_end_run env cb c step hstep hne]
  refine ⟨?_, ?_, fun xs => rfl, ?_⟩
  · rw [List.map_map]
    rfl
  · simp [sortedNames, List.length_insertionSort]
  · intro a h
    cases a with
    | dim1 xs => exact absurd rfl h
    | dim2 xss => rfl

/-- Witness for C4 at step 0 on the concrete environment. -/
theorem C4_one_sdr_per_pair_witness :
    (0 % cbW.evaluate_step_frequency = 0
     ∧ envW.listdir (osPathJoin cbW.evaluation_audios_dir "mixture") ≠ [])
    ∧ ((cbW.on_batch_end envW containerW 0).sdrs =
        (sortedNames (envW.listdir (osPathJoin cbW.evaluation_audios_dir "mixture"))).map
          (fun audio_name =>
            envW.calculate_sdr
              (envW.load
                (osPathJoin (osPathJoin cbW.evaluation_audios_dir cbW.target_source_type)
                  audio_name)
                cbW.sample_rate cbW.mono)
              (envW.separate cbW.separator
                [("waveform", mixtureInput (envW.load
                    (osPathJoin (osPathJoin cbW.evaluation_audios_dir "mixture") audio_name)
                    cbW.sample_rate cbW.mono))]))
       ∧ (cbW.on_batch_end envW containerW 0).sdrs.length =
          (envW.listdir (osPathJoin cbW.evaluation_audios_dir "mixture")).length
       ∧ (∀ xs : List ℚ, mixtureInput (Audio.dim1 xs) = Audio.dim2 [xs])
       ∧ (∀ a : Audio, a.ndim ≠ 1 → mixtureInput a = a)) :=
  ⟨⟨rfl, by decide⟩, C4_one_sdr_per_pair envW cbW containerW 0 rfl (by decide)⟩

/-- C5: the evaluation callback is wired from the YAML config: the audio
directory is workspace joined with evaluate.test.evaluation_audios_dir,
segment_samples is int of segment_seconds times sample_rate, mono holds
exactly when channels is 1, and frequency, sample rate and batch size come
from their config entries. -/
theorem C5_config_wiring {M L : Type} (env : Env M)
    (config_yaml dataset_dir workspace checkpoints_dir statistics_path : String)
    (logger : L) (model : M) (evaluate_device : String) (t : String)
    (h : (env.readYaml config_yaml).train.target_source_types = [t]) :
    ∃ (s : SaveCheckpointsCallback M) (ec : EvaluationCallback M L),
      get_violin_piano_callbacks env config_yaml dataset_dir workspace checkpoints_dir
          statistics_path logger model evaluate_device
        = Except.ok [Callback.save s, Callback.eval ec]
      ∧ ec.evaluation_audios_dir =
          osPathJoin workspace (env.readYaml config_yaml).evaluate.test.evaluation_audios_dir
      ∧ ec.segment_samples =
          pyInt ((env.readYaml config_yaml).evaluate.segment_seconds
            * ((env.readYaml config_yaml).train.sample_rate : ℚ))
      ∧ (ec.mono = true ↔ (env.readYaml config_yaml).train.channels = 1)
      ∧ ec.evaluate_step_frequency = (env.readYaml config_yaml).train.evaluate_step_frequency
      ∧ ec.sample_rate = (env.readYaml config_yaml).train.sample_rate
      ∧ ec.separator.batch_size = (env.readYaml config_yaml).evaluate.batch_size := by
  simp only [get_violin_piano_callbacks, h]
  exact ⟨_, _, rfl, rfl, rfl, by simp, rfl, rfl, rfl⟩

/-- Witness for C5 on the concrete environment. -/
theorem C5_config_wiring_witness :
    (envW.readYaml "cfg.yaml").train.target_source_types = ["violin"]
    ∧ (∃ (s : SaveCheckpointsCallback Unit) (ec : EvaluationCallback Unit Unit),
        get_violin_piano_callbacks envW "cfg.yaml" "ds" "ws" "ckpt" "stats.pkl" () () "cuda"
          = Except.ok [Callback.save s, Callback.eval ec]
        ∧ ec.evaluation_audios_dir =
            osPathJoin "ws" (envW.readYaml "cfg.yaml").evaluate.test.evaluation_audios_dir
        ∧ ec.segment_samples =
            pyInt ((envW.readYaml "cfg.yaml").evaluate.segment_seconds
              * ((envW.readYaml "cfg.yaml").train.sample_rate : ℚ))
        ∧ (ec.mono = true ↔ (envW.readYaml "cfg.yaml").train.channels = 1)
        ∧ ec.evaluate_step_frequency = (envW.readYaml "cfg.yaml").train.evaluate_step_frequency
        ∧ ec.sample_rate = (envW.readYaml "cfg.yaml").train.sample_rate
        ∧ ec.separator.batch_size = (envW.readYaml "cfg.yaml").evaluate.batch_size) :=
  ⟨rfl, C5_config_wiring envW "cfg.yaml" "ds" "ws" "ckpt" "stats.pkl" () () "cuda" "violin" rfl⟩

/-- C8: get_violin_piano_callbacks raises an AssertionError exactly when
target_source_types does not have one element; with exactly one element, that
element becomes the target source type of the evaluation callback. -/
theorem C8_assert_single_target_source {M L : Type} (env : Env M)
    (config_yaml dataset_dir workspace checkpoints_dir statistics_path : String)
    (logger : L) (model : M) (evaluate_device : String) :
    ((∃ e, get_violin_piano_callbacks env config_yaml dataset_dir workspace checkpoints_dir
        statistics_path logger model evaluate_device = Except.error e)
      ↔ (env.readYaml config_yaml).train.target_source_types.length ≠ 1)
    ∧ (∀ t, (env.readYaml config_yaml).train.target_source_types = [t] →
        ∃ (s : SaveCheckpointsCallback M) (ec : EvaluationCallback M L),
          get_violin_piano_callbacks env config_yaml dataset_dir workspace checkpoints_dir
              statistics_path logger model evaluate_device
            = Except.ok [Callback.save s, Callback.eval ec]
          ∧ ec.target_source_type = t) := by
  constructor
  · rcases hl : (env.readYaml config_yaml).train.target_source_types with _ | ⟨t, _ | ⟨t2, rest⟩⟩
    · simp [get_violin_piano_callbacks, hl]
    · simp [get_violin_piano_callbacks, hl]
    · simp [get_violin_piano_callbacks, hl]
  · intro t ht
    simp only [get_violin_piano_callbacks, ht]
    exact ⟨_, _, rfl, rfl⟩

/-- Witness for C8 on the concrete environment, whose config has exactly one
target source type. -/
theorem C8_assert_single_target_source_witness :
    ∃ (s : SaveCheckpointsCallback Unit) (ec : EvaluationCallback Unit Unit),
      get_violin_piano_callbacks envW "cfg.yaml" "ds" "ws" "ckpt" "stats.pkl" () () "cuda"
        = Except.ok [Callback.save s, Callback.eval ec]
      ∧ ec.target_source_type = "violin" :=
  (C8_assert_single_target_source envW "cfg.yaml" "ds" "ws" "ckpt" "stats.pkl"
    () () "cuda").2 "violin" rfl

/-- C9: a successful call returns exactly two callbacks, the checkpoint-saving
callback built from the model, the checkpoints directory and the config entry
save_step_frequency first, and the evaluation callback second. -/
theorem C9_two_callbacks_in_order {M L : Type} (env : Env M)
    (config_yaml dataset_dir workspace checkpoints_dir statistics_path : String)
    (logger : L) (model : M) (evaluate_device : String) (t : String)
    (h : (env.readYaml config_yaml).train.target_source_types = [t]) :
    ∃ ec : EvaluationCallback M L,
      get_violin_piano_callbacks env config_yaml dataset_dir workspace checkpoints_dir
          statistics_path logger model evaluate_device
        = Except.ok
          [Callback.save
            { model := model
              checkpoints_dir := checkpoints_dir
              save_step_frequency := (env.readYaml config_yaml).train.save_step_frequency },
           Callback.eval ec] := by
  simp only [get_violin_piano_callbacks, h]
  exact ⟨_, rfl⟩

/-- Witness for C9 on the concrete environment. -/
theorem C9_two_callbacks_in_order_witness :
    (envW.readYaml "cfg.yaml").train.target_source_types = ["violin"]
    ∧ (∃ ec : EvaluationCallback Unit Unit,
        get_violin_piano_callbacks envW "cfg.yaml" "ds" "ws" "ckpt" "stats.pkl" () () "cuda"
          = Except.ok
            [Callback.save
              { model := ()
                checkpoints_dir := "ckpt"
                save_step_frequency := (envW.readYaml "cfg.yaml").train.save_step_frequency },
             Callback.eval ec]) :=
  ⟨rfl, C9_two_callbacks_in_order envW "cfg.yaml" "ds" "ws" "ckpt" "stats.pkl"
    () () "cuda" "violin" rfl⟩

/-- evaluateOne only depends on the environment through load, separate and
calculate_sdr. -/
theorem evaluateOne_congr {M L : Type} (env1 env2 : Env M)
    (cb : EvaluationCallback M L) (d1 d2 a : String)
    (hload : env1.load = env2.load) (hsep : env1.separate = env2.separate)
    (hsdr : env1.calculate_sdr = env2.calculate_sdr) :
    evaluateOne env1 cb d1 d2 a = evaluateOne env2 cb d1 d2 a := by
  simp only [evaluateOne, hload, hsep, hsdr]

/-- C10: the result of on_batch_end is invariant under permutation of the
directory listing: two runs whose listings are permutations of the same file
names, with identical per-file audio contents and separation results, record
the same statistic (indeed produce identical results), because the names are
sorted before processing. -/
theorem C10_permutation_invariant {M L : Type} (env1 env2 : Env M)
    (cb : EvaluationCallback M L) (c : StatisticsContainer) (step : Nat)
    (hload : env1.load = env2.load) (hsep : env1.separate = env2.separate)
    (hsdr : env1.calculate_sdr = env2.calculate_sdr)
    (hperm : ∀ d, (env1.listdir d).Perm (env2.listdir d)) :
    cb.on_batch_end env1 c step = cb.on_batch_end env2 c step := by
  have hnames : sortedNames (env1.listdir (osPathJoin cb.evaluation_audios_dir "mixture"))
      = sortedNames (env2.listdir (osPathJoin cb.evaluation_audios_dir "mixture")) :=
    sortedNames_eq_of_perm (hperm _)
  by_cases h : step % cb.evaluate_step_frequency = 0
  · by_cases hl : env1.listdir (osPathJoin cb.evaluation_audios_dir "mixture") = []
    · have hl2 : env2.listdir (osPathJoin cb.evaluation_audios_dir "mixture") = [] := by
        have hp := hperm (osPathJoin cb.evaluation_audios_dir "mixture")
        rw [hl] at hp
        exact hp.symm.eq_nil
      rw [on_batch_end_assert env1 cb c step h hl,
        on_batch_end_assert env2 cb c step h hl2]
    · have hl2 : env2.listdir (osPathJoin cb.evaluation_audios_dir "mixture") ≠ [] := by
        intro he
        apply hl
        have hp := hperm (osPathJoin cb.evaluation_audios_dir "mixture")
        rw [he] at hp
        exact hp.eq_nil
      have hfun : (fun audio_name =>
            evaluateOne env1 cb (osPathJoin cb.evaluation_audios_dir "mixture")
              (osPathJoin cb.evaluation_audios_dir cb.target_source_type) audio_name)
          = (fun audio_name =>
            evaluateOne env2 cb (osPathJoin cb.evaluation_audios_dir "mixture")
              (osPathJoin cb.evaluation_audios_dir cb.target_source_type) audio_name) := by
        funext a
        exact evaluateOne_congr env1 env2 cb _ _ a hload hsep hsdr
      rw [on_batch_end_run env1 cb c step h hl, on_batch_end_run env2 cb c step h hl2,
        hnames, hfun]
  · rw [on_batch_end_skip env1 cb c step h, on_batch_end_skip env2 cb c step h]

/-- A concrete environment whose listings are a permutation of those of envW,
for the C10 witness. -/
def envPermW : Env Unit := { envW with listdir := fun _ => ["a.wav", "b.wav"] }

/-- Witness for C10 on the concrete environments with permuted listings. -/
theorem C10_permutation_invariant_witness :
    (envW.load = envPermW.load
     ∧ envW.separate = envPermW.separate
     ∧ envW.calculate_sdr = envPermW.calculate_sdr
     ∧ ∀ d, (envW.listdir d).Perm (envPermW.listdir d))
    ∧ cbW.on_batch_end envW containerW 0 = cbW.on_batch_end envPermW containerW 0 :=
  ⟨⟨rfl, rfl, rfl, fun _ => List.Perm.swap "a.wav" "b.wav" []⟩,
   C10_permutation_invariant envW envPermW cbW containerW 0 rfl rfl rfl
     (fun _ => List.Perm.swap "a.wav" "b.wav" [])⟩

end Bytesep
